import Mathlib

/-!
Verification of the deployment decision workflow of the
vscode-azureappservice extension.

The development shallowly embeds three source files:

* `src/util.ts` — `parseAzureResourceId`
* `src/commands/deploy/setPreDeployTaskForDotnet.ts` — the .NET
  pre-deploy policy (`setPreDeployTaskForDotnet`, `tryGetCsprojFile`,
  `tryGetTargetFramework`, `generateDotnetTasks`)
* `src/commands/deploy/deploy.ts` — the `deploy` entry point, modelled as
  a pure function from an environment of external-collaborator answers
  (tree picker, remote client, user prompts, file system) to the list of
  observable effects it performs together with its outcome.

JavaScript strings are modelled as Lean `String`, optional values as
`Option`, thrown errors as explicit outcome constructors, and JavaScript
objects used as string maps as functions `String → Option String`.
-/

/-! ## String primitives

JavaScript string operations are modelled by structural recursion over the
character list of a `String`, so that every definition evaluates inside the
kernel on concrete inputs. -/

/-- JavaScript `s.split(sep)` for a one-character separator, on character
lists.  Splitting the empty string yields one empty piece, as in JS. -/
def splitOnChar (sep : Char) : List Char → List (List Char)
  | [] => [[]]
  | c :: rest =>
      match splitOnChar sep rest with
      | [] => [[]]
      | g :: gs => if c = sep then [] :: g :: gs else (c :: g) :: gs

/-- JavaScript `s.split(sep)` for a one-character separator. -/
def jsSplit (sep : Char) (s : String) : List String :=
  (splitOnChar sep s.data).map String.mk

/-- JavaScript `s.substring(1)`. -/
def jsDrop1 (s : String) : String :=
  String.mk (s.data.drop 1)

/-- Number of characters of a string. -/
def jsLength (s : String) : Nat :=
  s.data.length

/-- First character of a string, when it has one. -/
def jsCharAt0 (s : String) : Option Char :=
  s.data.head?

/-- Case-insensitive matching, as applied by a regular expression `i` flag
to the ASCII patterns used in the repository. -/
def jsToLower (s : String) : String :=
  String.mk (s.data.map Char.toLower)

/-- Whether `pat` is a suffix of `s`. -/
def jsEndsWith (s pat : String) : Bool :=
  List.isSuffixOf pat.data s.data

/-- Whether `pat` is a prefix of `s`. -/
def jsStartsWith (s pat : String) : Bool :=
  List.isPrefixOf pat.data s.data

/-! ## Node path helpers

The repository calls a handful of Node `path` functions.  They are not part
of the repository, so they are modelled shallowly for the posix inputs the
repository actually passes (no `..` segments, no trailing separators). -/

/-- Node `path.join(a, b)` for a non-empty `a` and a plain entry name `b`. -/
def pathJoin (a b : String) : String :=
  a ++ "/" ++ b

/-- Node `path.relative(from, to)` for the only shape used here: `to` was
built by joining `from` with further segments. -/
def pathRelative (fromPath toPath : String) : String :=
  if toPath == fromPath then ""
  else if jsStartsWith toPath (fromPath ++ "/") then
    String.mk (toPath.data.drop (fromPath.data.length + 1))
  else toPath

/-- Concatenate path segments with `/`. -/
def joinSegs : List String → String
  | [] => ""
  | [p] => p
  | p :: rest => p ++ "/" ++ joinSegs rest

/-- Node `path.dirname`: the text before the final separator, `"."` when the
path contains none. -/
def pathDirname (p : String) : String :=
  let segs := jsSplit '/' p
  if segs.length ≤ 1 then "." else joinSegs segs.dropLast

/-- Node `path.posix.join(parts...)` for arguments free of `".."`: the parts
are concatenated with `/` and empty and `"."` segments are dropped. -/
def posixJoin (parts : List String) : String :=
  let segs := ((parts.map (jsSplit '/')).flatten).filter
    (fun s => s != "" && s != ".")
  if segs.isEmpty then "." else joinSegs segs

/-! ## `src/util.ts` — `parseAzureResourceId` -/

/-- Message of the error thrown by `parseAzureResourceId`. -/
def invalidWebAppMessage : String := "Invalid web app ID."

/-- JavaScript object assignment `result[key] = value`, with the object
viewed as the string map it represents. -/
def objSet (result : String → Option String) (key value : String) :
    String → Option String :=
  fun q => if q = key then some value else result q

/-- The `for` loop of `parseAzureResourceId`: walk the segments two at a
time, throw on an empty key or value, otherwise assign into the result
object.  The one-element case is unreachable because the caller has already
checked that the segment count is even. -/
def assignPairs : List String → (String → Option String) →
    Except String (String → Option String)
  | [], result => Except.ok result
  | [_], result => Except.ok result
  | key :: value :: rest, result =>
      if key == "" || value == "" then Except.error invalidWebAppMessage
      else assignPairs rest (objSet result key value)

/-- The empty JavaScript object `{}` viewed as a string map. -/
def emptyObj : String → Option String := fun _ => none

/-- Model of `parseAzureResourceId` (src/util.ts, lines 19-45).  A falsy or
too-short input and an input not starting with `/` are rejected, then the
rest is split on `/`; an odd segment count is rejected, and the segments are
consumed pairwise. -/
def parseAzureResourceId (resourceId : String) :
    Except String (String → Option String) :=
  if jsLength resourceId < 2 || jsCharAt0 resourceId != some '/' then
    Except.error invalidWebAppMessage
  else if (jsSplit '/' (jsDrop1 resourceId)).length % 2 != 0 then
    Except.error invalidWebAppMessage
  else assignPairs (jsSplit '/' (jsDrop1 resourceId)) emptyObj

/-! Spec-side characterisation of `parseAzureResourceId`, written from the
words of the claim: the invalid inputs, and the key-value pairing with a
later duplicate key overriding an earlier one. -/

/-- The inputs the claim says are rejected. -/
def invalidResourceId (r : String) : Prop :=
  r = "" ∨ jsLength r < 2 ∨ jsCharAt0 r ≠ some '/' ∨
    (jsSplit '/' (jsDrop1 r)).length % 2 = 1 ∨
    "" ∈ jsSplit '/' (jsDrop1 r)

instance (r : String) : Decidable (invalidResourceId r) := by
  unfold invalidResourceId
  infer_instance

/-- Pair each even-indexed segment with the segment that follows it. -/
def pairsOf : List String → List (String × String)
  | key :: value :: rest => (key, value) :: pairsOf rest
  | _ => []

/-- Value of the last pair whose key is `k` — a later occurrence of a
duplicate key overrides an earlier one. -/
def lastPairValue (ps : List (String × String)) (k : String) :
    Option String :=
  Option.map Prod.snd (List.find? (fun p => p.1 == k) ps.reverse)

theorem assignPairs_error : ∀ (l : List String)
    (acc : String → Option String) (e : String),
    assignPairs l acc = Except.error e →
    e = invalidWebAppMessage ∧ "" ∈ l
  | [], _, _ => by simp [assignPairs]
  | [a], _, _ => by simp [assignPairs]
  | key :: value :: rest, acc, e => by
      intro h
      unfold assignPairs at h
      by_cases hk : (key == "" || value == "") = true
      · rw [if_pos hk] at h
        injection h with he
        refine ⟨he.symm, ?_⟩
        rcases Bool.or_eq_true_iff.mp hk with h1 | h1
        · simp [eq_of_beq h1]
        · simp [eq_of_beq h1]
      · rw [if_neg hk] at h
        have ih := assignPairs_error rest (objSet acc key value) e h
        exact ⟨ih.1, by simp [List.mem_cons, ih.2]⟩

theorem assignPairs_ok_no_empty : ∀ (l : List String)
    (acc m : String → Option String),
    l.length % 2 = 0 → assignPairs l acc = Except.ok m → "" ∉ l
  | [], _, _ => by simp
  | [a], _, _ => by intro h; simp at h
  | key :: value :: rest, acc, m => by
      intro hlen h
      unfold assignPairs at h
      by_cases hk : (key == "" || value == "") = true
      · rw [if_pos hk] at h
        exact absurd h (by simp)
      · rw [if_neg hk] at h
        have hlen' : rest.length % 2 = 0 := by
          simp [List.length_cons] at hlen
          omega
        have ih := assignPairs_ok_no_empty rest (objSet acc key value) m hlen' h
        rcases Bool.or_eq_false_iff.mp (Bool.not_eq_true _ ▸ hk) with ⟨h1, h2⟩
        intro hmem
        rcases List.mem_cons.mp hmem with h3 | hmem'
        · rw [← h3] at h1
          simp at h1
        · rcases List.mem_cons.mp hmem' with h3 | hmem''
          · rw [← h3] at h2
            simp at h2
          · exact ih hmem''

theorem lastPairValue_cons (k₀ v₀ : String) (ps : List (String × String))
    (k : String) :
    lastPairValue ((k₀, v₀) :: ps) k =
      (lastPairValue ps k).orElse
        (fun _ => if k₀ == k then some v₀ else none) := by
  unfold lastPairValue
  rw [List.reverse_cons, List.find?_append]
  cases hf : List.find? (fun p => p.1 == k) ps.reverse with
  | none =>
      simp only [Option.orElse, Option.map]
      cases hk : (k₀ == k) <;> simp [List.find?, hk]
  | some p =>
      simp [Option.orElse]

theorem assignPairs_ok_lookup : ∀ (l : List String)
    (acc m : String → Option String),
    assignPairs l acc = Except.ok m →
    ∀ k, m k = (lastPairValue (pairsOf l) k).orElse (fun _ => acc k)
  | [], acc, m => by
      intro h k
      simp [assignPairs] at h
      simp [← h, pairsOf, lastPairValue, Option.orElse]
  | [a], acc, m => by
      intro h k
      simp [assignPairs] at h
      simp [← h, pairsOf, lastPairValue, Option.orElse]
  | key :: value :: rest, acc, m => by
      intro h k
      unfold assignPairs at h
      by_cases hk : (key == "" || value == "") = true
      · rw [if_pos hk] at h; exact absurd h (by simp)
      · rw [if_neg hk] at h
        have ih := assignPairs_ok_lookup rest (objSet acc key value) m h k
        rw [ih]
        show _ = (lastPairValue (pairsOf (key :: value :: rest)) k).orElse _
        have : pairsOf (key :: value :: rest) = (key, value) :: pairsOf rest := by
          simp [pairsOf]
        rw [this, lastPairValue_cons]
        cases hl : lastPairValue (pairsOf rest) k with
        | some v => simp [Option.orElse]
        | none =>
            simp only [Option.orElse]
            unfold objSet
            cases hkk : (key == k) with
            | true =>
                have hek : key = k := eq_of_beq hkk
                simp [hek]
            | false =>
                have hne : ¬ k = key := by
                  intro hh
                  rw [hh] at hkk
                  simp at hkk
                simp [hne]

theorem orElse_none_eq (o : Option String) :
    (o.orElse fun _ => none) = o := by
  cases o <;> simp [Option.orElse]

/-- C10: `parseAzureResourceId` throws the error `Invalid web app ID.` if and
only if the input is empty, shorter than two characters, does not start with
`/`, splits after the leading `/` into an odd number of segments, or has an
empty segment; every other input yields the map pairing each even-indexed
segment with the following segment, a later occurrence of a duplicate key
overriding an earlier one. -/
theorem parseAzureResourceId_spec (r : String) :
    match parseAzureResourceId r with
    | Except.error e => e = invalidWebAppMessage ∧ invalidResourceId r
    | Except.ok m => ¬ invalidResourceId r ∧
        ∀ k, m k = lastPairValue (pairsOf (jsSplit '/' (jsDrop1 r))) k := by
  unfold parseAzureResourceId
  by_cases h1 : (decide (jsLength r < 2) || (jsCharAt0 r != some '/')) = true
  · rw [if_pos h1]
    refine ⟨rfl, ?_⟩
    unfold invalidResourceId
    rcases Bool.or_eq_true_iff.mp h1 with h | h
    · exact Or.inr (Or.inl (of_decide_eq_true h))
    · exact Or.inr (Or.inr (Or.inl (by simpa using h)))
  · rw [if_neg h1]
    rcases Bool.or_eq_false_iff.mp (Bool.not_eq_true _ ▸ h1) with ⟨hlen, hfront⟩
    have hlen' : ¬ jsLength r < 2 := of_decide_eq_false hlen
    have hfront' : jsCharAt0 r = some '/' := by simpa using hfront
    by_cases h2 : (((jsSplit '/' (jsDrop1 r)).length % 2 != 0) = true)
    · rw [if_pos h2]
      refine ⟨rfl, ?_⟩
      unfold invalidResourceId
      have : (jsSplit '/' (jsDrop1 r)).length % 2 = 1 := by
        have := bne_iff_ne.mp h2
        omega
      exact Or.inr (Or.inr (Or.inr (Or.inl this)))
    · rw [if_neg h2]
      have hmod : (jsSplit '/' (jsDrop1 r)).length % 2 = 0 := by
        have : ¬ (jsSplit '/' (jsDrop1 r)).length % 2 ≠ 0 := by
          intro hne
          exact h2 (bne_iff_ne.mpr hne)
        omega
      cases hA : assignPairs (jsSplit '/' (jsDrop1 r)) emptyObj with
      | error e =>
          have := assignPairs_error _ _ _ hA
          refine ⟨this.1, ?_⟩
          unfold invalidResourceId
          exact Or.inr (Or.inr (Or.inr (Or.inr this.2)))
      | ok m =>
          refine ⟨?_, ?_⟩
          · intro hinv
            unfold invalidResourceId at hinv
            rcases hinv with h | h | h | h | h
            · rw [h] at hlen'
              exact hlen' (by decide)
            · exact hlen' h
            · exact h hfront'
            · omega
            · exact assignPairs_ok_no_empty _ _ _ hmod hA h
          · intro k
            rw [assignPairs_ok_lookup _ _ _ hA k]
            unfold emptyObj
            exact orElse_none_eq _

/-! ## `src/commands/deploy/setPreDeployTaskForDotnet.ts`

The function is modelled as a pure map from an environment — the answers of
the workspace-settings store, the file system and the prompt surface — to
the list of effects it performs, the possibly rewritten `deployFsPath` of
the wizard context, and whether the user cancelled the prompt. -/

/-- A task definition, with the fields `generateDotnetTasks` populates. -/
structure ITask where
  label : String
  command : String
  type : String
  args : List String
  problemMatcher : String
  deriving DecidableEq, Repr

/-- A directory entry of the workspace root: its name, whether it is a
directory, and — when it is — the entry names inside it. -/
structure FsEntry where
  name : String
  isDirectory : Bool
  children : List String
  deriving DecidableEq, Repr

/-- Answer of the modal pre-deploy warning. `cancelled` models the user
dismissing the dialog, which makes the UI helper throw a cancellation. -/
inductive DotnetPromptChoice where
  | yes
  | dontShowAgain
  | cancelled
  deriving DecidableEq, Repr

/-- A value written through `updateWorkspaceSetting`. -/
inductive SettingValue where
  | b (v : Bool)
  | s (v : String)
  deriving DecidableEq, Repr

/-- Observable effects of `setPreDeployTaskForDotnet`. -/
inductive DotnetEffect where
  | scannedFilesystem
  | showedPrompt
  | wroteSetting (key : String) (value : SettingValue) (scope : String)
  | wroteTasks (tasks : List ITask)
  deriving DecidableEq, Repr

/-- Environment of one `setPreDeployTaskForDotnet` call: current workspace
settings, workspace layout, file contents, the prompt answer, and the
already configured tasks returned by `tasks.getTasks`. -/
structure DotnetEnv where
  workspaceFsPath : String
  workspaceName : String
  deployFsPath : String
  showPreDeployWarning : Option Bool
  preDeployTask : Option String
  deploySubpath : Option String
  rootEntries : List FsEntry
  fileContents : String → String
  promptChoice : DotnetPromptChoice
  existingTasks : List ITask

/-- Result of a `setPreDeployTaskForDotnet` call. -/
structure DotnetResult where
  effects : List DotnetEffect
  deployFsPath : String
  cancelled : Bool
  deriving Repr

/-- JavaScript truthiness of an optional boolean setting value. -/
def optBoolTruthy : Option Bool → Bool
  | some b => b
  | none => false

/-- JavaScript truthiness of an optional string setting value. -/
def optStrTruthy : Option String → Bool
  | some s => s != ""
  | none => false

/-- Modelled from the spec: `isPathEqual` of the missing
`utils/pathUtils.ts` decides whether the deployed path is the workspace
root; the spec phrases it as "the request's localPath differs from the
workspace root", modelled as string equality of the two paths. -/
def isPathEqual (a b : String) : Bool :=
  a == b

/-- The body of `checkFolderForCsproj`: read the entry names of a folder,
join each onto the folder path, and keep those matching `/\.csproj$/i`. -/
def checkFolderForCsproj (folderPath : String) (entryNames : List String) :
    List String :=
  (entryNames.map (pathJoin folderPath)).filter
    (fun f => jsEndsWith (jsToLower f) ".csproj")

/-- The project files collected by `tryGetCsprojFile`: the ones of the
workspace root and, only when the root has none, the ones of its immediate
subdirectories. -/
def scannedProjectFiles (env : DotnetEnv) : List String :=
  let rootFiles := checkFolderForCsproj env.workspaceFsPath
    (env.rootEntries.map FsEntry.name)
  if rootFiles.length = 0 then
    ((env.rootEntries.filter FsEntry.isDirectory).map
      (fun e => checkFolderForCsproj (pathJoin env.workspaceFsPath e.name)
        e.children)).flatten
  else rootFiles

/-- Model of `tryGetCsprojFile` (lines 79-106): the scan result is used only
when it is unambiguous — multiple candidates yield `none`. -/
def tryGetCsprojFile (env : DotnetEnv) : Option String :=
  let projectFiles := scannedProjectFiles env
  if projectFiles.length = 1 then projectFiles.head? else none

/-! Model of `tryGetTargetFramework` (lines 108-112): the first match of the
JavaScript regular expression `<TargetFramework>(.*)<\/TargetFramework>`,
whose `.` matches no line terminator and whose `.*` is greedy. -/

/-- Characters matched by the JavaScript regular-expression dot. -/
def isDotChar (c : Char) : Bool :=
  c != Char.ofNat 10 && c != Char.ofNat 13 &&
  c != Char.ofNat 0x2028 && c != Char.ofNat 0x2029

/-- The opening literal of the target-framework pattern. -/
def openTagChars : List Char := "<TargetFramework>".data

/-- The closing literal of the target-framework pattern. -/
def closeTagChars : List Char := "</TargetFramework>".data

/-- Largest length a greedy `.*` can take before the closing literal. -/
def greedyCloseIndex (rest : List Char) : Option Nat :=
  ((List.range (rest.length + 1)).filter
    (fun k => (rest.take k).all isDotChar &&
      List.isPrefixOf closeTagChars (rest.drop k))).getLast?

/-- Leftmost-starting, greedy match of the target-framework pattern. -/
def tfSearch : List Char → Option (List Char)
  | [] => none
  | c :: tl =>
      if List.isPrefixOf openTagChars (c :: tl) then
        match greedyCloseIndex ((c :: tl).drop openTagChars.length) with
        | some k => some (((c :: tl).drop openTagChars.length).take k)
        | none => tfSearch tl
      else tfSearch tl

/-- Model of `tryGetTargetFramework`: the capture group of the first match,
or `undefined` when the contents never match. -/
def tryGetTargetFramework (projContents : String) : Option String :=
  (tfSearch projContents.data).map String.mk

/-- Model of `generateDotnetTasks` (lines 114-159): the three fixed task
definitions, rooted at the project subfolder. -/
def generateDotnetTasks (subfolder : String) : List ITask :=
  let cwd : String := posixJoin ["$\x7bworkspaceFolder\x7d", subfolder]
  [{ label := "build", command := "dotnet", type := "process",
     args := ["build", cwd, "/property:GenerateFullPaths=true",
              "/consoleloggerparameters:NoSummary"],
     problemMatcher := "$msCompile" },
   { label := "publish", command := "dotnet", type := "process",
     args := ["publish", cwd, "/property:GenerateFullPaths=true",
              "/consoleloggerparameters:NoSummary"],
     problemMatcher := "$msCompile" },
   { label := "watch", command := "dotnet", type := "process",
     args := ["watch", "run", cwd, "/property:GenerateFullPaths=true",
              "/consoleloggerparameters:NoSummary"],
     problemMatcher := "$msCompile" }]

/-- Model of `setPreDeployTaskForDotnet` (lines 17-77).  Effects appear in
the order the source performs them. -/
def setPreDeployTaskForDotnet (env : DotnetEnv) : DotnetResult :=
  let workspaceFspath := env.workspaceFsPath
  if !optBoolTruthy env.showPreDeployWarning
      || optStrTruthy env.preDeployTask
      || optStrTruthy env.deploySubpath then
    { effects := [], deployFsPath := env.deployFsPath, cancelled := false }
  else if !(isPathEqual env.deployFsPath workspaceFspath) then
    { effects := [], deployFsPath := env.deployFsPath, cancelled := false }
  else
    match tryGetCsprojFile env with
    | none =>
        { effects := [DotnetEffect.scannedFilesystem],
          deployFsPath := env.deployFsPath, cancelled := false }
    | some csprojFile =>
        match tryGetTargetFramework (env.fileContents csprojFile) with
        | none =>
            { effects := [DotnetEffect.scannedFilesystem],
              deployFsPath := env.deployFsPath, cancelled := false }
        | some targetFramework =>
            match env.promptChoice with
            | DotnetPromptChoice.cancelled =>
                { effects := [DotnetEffect.scannedFilesystem,
                              DotnetEffect.showedPrompt],
                  deployFsPath := env.deployFsPath, cancelled := true }
            | DotnetPromptChoice.dontShowAgain =>
                { effects := [DotnetEffect.scannedFilesystem,
                              DotnetEffect.showedPrompt,
                              DotnetEffect.wroteSetting "showPreDeployWarning"
                                (SettingValue.b false) workspaceFspath],
                  deployFsPath := env.deployFsPath, cancelled := false }
            | DotnetPromptChoice.yes =>
                let subfolder := pathDirname
                  (pathRelative workspaceFspath csprojFile)
                let deploySubpath := posixJoin
                  [subfolder, "bin", "Release", targetFramework, "publish"]
                let existingTasks := env.existingTasks
                let dotnetTasks := (generateDotnetTasks subfolder).filter
                  (fun t1 => !(existingTasks.any
                    (fun t2 => t1.label == t2.label)))
                let newTasks := existingTasks ++ dotnetTasks
                { effects := [DotnetEffect.scannedFilesystem,
                              DotnetEffect.showedPrompt,
                              DotnetEffect.wroteSetting "preDeployTask"
                                (SettingValue.s "publish") workspaceFspath,
                              DotnetEffect.wroteSetting "deploySubpath"
                                (SettingValue.s deploySubpath) workspaceFspath,
                              DotnetEffect.wroteTasks newTasks],
                  deployFsPath := pathJoin workspaceFspath deploySubpath,
                  cancelled := false }

/-! ## `src/commands/deploy/deploy.ts`

The `deploy` entry point is modelled as a pure function from an environment
of external-collaborator answers to the ordered list of observable effects
and an outcome.  Remote fetches, prompts and writes appear as events in
source order. -/

/-- The values of the missing `constants.ts` `ScmType` enumeration, as the
spec describes the source-control deployment modes. -/
def scmTypeNone : String := "None"

/-- The `LocalGit` member of the `ScmType` enumeration. -/
def scmTypeLocalGit : String := "LocalGit"

/-- The `GitHub` member of the `ScmType` enumeration. -/
def scmTypeGitHub : String := "GitHub"

/-- Modelled from the spec: the key of the persisted default-target
preference (`constants.configurationSettings.defaultWebAppToDeploy` of the
missing `constants.ts`). -/
def defaultWebAppToDeploySetting : String := "defaultWebAppToDeploy"

/-- The site configuration returned by `getSiteConfig`, with the fields
`deploy` reads. -/
structure SiteConfigResource where
  scmType : Option String
  linuxFxVersion : Option String
  deriving DecidableEq, Repr

/-- A site tree node: its identity, display name, and the configuration its
remote client returns. -/
structure SiteTreeItem where
  fullId : String
  fullName : String
  siteConfig : SiteConfigResource
  deriving DecidableEq, Repr

/-- The optional `target` argument of `deploy`. -/
inductive DeployTarget where
  | uri (fsPath : String)
  | treeItem (node : SiteTreeItem)
  deriving DecidableEq, Repr

/-- Button chosen on the destructive-deploy warning. `cancel` models both
the cancel button and dismissal, which the UI helper turns into a thrown
cancellation. -/
inductive WarningChoice where
  | deploy
  | resetDefault
  | cancel
  deriving DecidableEq, Repr

/-- Observable events of one `deploy` invocation, in source order. -/
inductive DeployEvent where
  | remoteGetSiteConfig (nodeId : String)
  | resolveDeployFsPath
  | registerCreateListener
  | getDefaultWebApp
  | showTreeItemPicker
  | disposeCreateListener
  | javaArtifactQuickPick
  | configureJavaSEAppSettings
  | promptScmDoBuildDeploy (runtime : String)
  | showConfirmationWarning (siteName : String)
  | openSettingsDocument
  | updateWorkspaceSetting (key value scope : String)
  | executeCommand (command : String)
  | promptToSaveDeployDefaults
  | runPreDeployTask
  | transferArtifact (nodeId : String) (fsPath : String)
  | showDeployCompleteMessage
  | validateWebSite
  deriving DecidableEq, Repr

/-- Outcome of one `deploy` invocation. -/
inductive DeployOutcome where
  | completed
  | returnedAfterReset
  | thrown (message : String)
  | userCancelled
  deriving DecidableEq, Repr

/-- The message of the error thrown when the deployed path is in no open
workspace (line 52). -/
def noWorkspaceMessage : String :=
  "Failed to deploy because the path is not part of an open workspace. Open in a workspace and try again."

/-- Environment of one `deploy` invocation: the `target` argument, the
answers of `getDeployFsPath`, `getContainingWorkspace`,
`getDefaultWebAppToDeploy`, the tree-item picker, the tree events fired
while the creation listener is registered, the java-runtime helpers, the
workspace settings, and the warning-dialog answer.  An environment whose
`warningChoice` is `resetDefault` while `deployedWithConfigs` is false
corresponds to no real execution, because the reset button is only offered
when a default target was used. -/
structure DeployEnv where
  target : Option DeployTarget
  deployFsPath : String
  containingWorkspace : Option String
  defaultWebApp : Option SiteTreeItem
  deployedWithConfigs : Bool
  pickerResult : Except Unit SiteTreeItem
  createdNodes : List SiteTreeItem
  isJavaRuntime : Option String → Bool
  javaArtifactPick : Option String
  showBuildDuringDeployPrompt : Bool
  deploymentFileExists : Bool
  warningChoice : WarningChoice

/-- Events and fetched configuration of lines 37-48: a tree-item target has
its site configuration fetched remotely before anything else, then
`getDeployFsPath` resolves the local path. -/
def preResolutionEvents (env : DeployEnv) : List DeployEvent :=
  (match env.target with
   | some (DeployTarget.treeItem n) => [DeployEvent.remoteGetSiteConfig n.fullId]
   | _ => []) ++ [DeployEvent.resolveDeployFsPath]

/-- The configuration already fetched before resolution, when the entry
point was a tree item (line 40). -/
def initialSiteConfig (env : DeployEnv) : Option SiteConfigResource :=
  match env.target with
  | some (DeployTarget.treeItem n) => some n.siteConfig
  | _ => none

/-- Lines 59-75: when no tree item was passed, register the creation
listener, try the persisted default target, otherwise show the picker; the
listener is disposed on every path, and the nodes it collected accompany
the resolved node. -/
def resolveNodeStep (env : DeployEnv) :
    List DeployEvent × Except Unit (SiteTreeItem × List SiteTreeItem) :=
  match env.target with
  | some (DeployTarget.treeItem n) => ([], Except.ok (n, []))
  | _ =>
      match env.defaultWebApp with
      | some d =>
          ([DeployEvent.registerCreateListener, DeployEvent.getDefaultWebApp,
            DeployEvent.disposeCreateListener],
           Except.ok (d, env.createdNodes))
      | none =>
          match env.pickerResult with
          | Except.ok p =>
              ([DeployEvent.registerCreateListener, DeployEvent.getDefaultWebApp,
                DeployEvent.showTreeItemPicker, DeployEvent.disposeCreateListener],
               Except.ok (p, env.createdNodes))
          | Except.error _ =>
              ([DeployEvent.registerCreateListener, DeployEvent.getDefaultWebApp,
                DeployEvent.showTreeItemPicker, DeployEvent.disposeCreateListener],
               Except.error ())

/-- Line 125.  The source compares the `siteConfig` OBJECT itself — not its
`scmType` field — with the string `constants.ScmType.GitHub`; a JavaScript
strict comparison between an object and a string is always unequal, so this
conjunct is constantly true. -/
def siteConfigStrictNeGitHub (_siteConfig : SiteConfigResource) : Bool :=
  true

/-- The condition of line 125 guarding the destructive-deploy warning. -/
def confirmationGate (confirmDeployment : Bool)
    (siteConfig : SiteConfigResource) : Bool :=
  confirmDeployment && !(siteConfig.scmType == some scmTypeLocalGit)
    && siteConfigStrictNeGitHub siteConfig

/-- Lines 111-123: the optional scm-build prompt for node and python stacks
deployed with zip deploy and no `.deployment` file. -/
def scmBuildPromptEvents (env : DeployEnv)
    (siteConfig : SiteConfigResource) : List DeployEvent :=
  if env.showBuildDuringDeployPrompt then
    match siteConfig.linuxFxVersion with
    | some lfv =>
        if lfv != "" && siteConfig.scmType == some scmTypeNone
            && !env.deploymentFileExists then
          if jsStartsWith (jsToLower lfv) "node" then
            [DeployEvent.promptScmDoBuildDeploy "node"]
          else if jsStartsWith (jsToLower lfv) "python" then
            [DeployEvent.promptScmDoBuildDeploy "python"]
          else []
        else []
    | none => []
  else []

/-- Lines 152-187: the tail of a deploy that was not cancelled — save the
defaults when no configured default was used, run the pre-deploy task,
transfer the artifact, and fire the two post-deploy notifications. -/
def finishEvents (env : DeployEnv) (node : SiteTreeItem)
    (deployFsPath : String) : List DeployEvent :=
  (if env.deployedWithConfigs then [] else [DeployEvent.promptToSaveDeployDefaults])
    ++ [DeployEvent.runPreDeployTask,
        DeployEvent.transferArtifact node.fullId deployFsPath,
        DeployEvent.showDeployCompleteMessage,
        DeployEvent.validateWebSite]

/-- Lines 77-92: the loop over the nodes created during resolution clears
`confirmDeployment` when one of them is the resolved node. -/
def tieBreakConfirm (newNodes : List SiteTreeItem) (node : SiteTreeItem)
    (confirmDeployment : Bool) : Bool :=
  if newNodes.any (fun a => a.fullId == node.fullId) then false
  else confirmDeployment

/-- Lines 77-187, after a node was resolved: the created-node tie-break, the
lazy configuration fetch, the java handling, the scm-build prompt, the
confirmation gate and its three answers, and the finishing steps. -/
def afterResolution (env : DeployEnv) (confirmDeployment0 : Bool)
    (workspaceRoot : String) (siteConfig0 : Option SiteConfigResource)
    (node : SiteTreeItem) (newNodes : List SiteTreeItem) :
    List DeployEvent × DeployOutcome :=
  let matched := newNodes.filter (fun a => a.fullId == node.fullId)
  let evMatch := matched.map (fun a => DeployEvent.remoteGetSiteConfig a.fullId)
  let confirmDeployment := tieBreakConfirm newNodes node confirmDeployment0
  let evCfgSc : List DeployEvent × SiteConfigResource :=
    match siteConfig0 with
    | some sc => ([], sc)
    | none => ([DeployEvent.remoteGetSiteConfig node.fullId], node.siteConfig)
  let siteConfig := evCfgSc.2
  let evJavaPath : List DeployEvent × String :=
    if env.isJavaRuntime siteConfig.linuxFxVersion then
      match env.javaArtifactPick with
      | some p => ([DeployEvent.javaArtifactQuickPick,
                    DeployEvent.configureJavaSEAppSettings], p)
      | none => ([DeployEvent.configureJavaSEAppSettings], env.deployFsPath)
    else ([], env.deployFsPath)
  let deployFsPath := evJavaPath.2
  let pre := evMatch ++ evCfgSc.1 ++ evJavaPath.1
    ++ scmBuildPromptEvents env siteConfig
  if confirmationGate confirmDeployment siteConfig then
    match env.warningChoice with
    | WarningChoice.cancel =>
        (pre ++ [DeployEvent.showConfirmationWarning node.fullName],
         DeployOutcome.userCancelled)
    | WarningChoice.resetDefault =>
        (pre ++ [DeployEvent.showConfirmationWarning node.fullName,
                 DeployEvent.openSettingsDocument,
                 DeployEvent.updateWorkspaceSetting defaultWebAppToDeploySetting
                   "" workspaceRoot,
                 DeployEvent.executeCommand "appService.Deploy"],
         DeployOutcome.returnedAfterReset)
    | WarningChoice.deploy =>
        (pre ++ [DeployEvent.showConfirmationWarning node.fullName]
             ++ finishEvents env node deployFsPath,
         DeployOutcome.completed)
  else
    (pre ++ finishEvents env node deployFsPath, DeployOutcome.completed)

/-- Model of `deploy` (lines 30-188). -/
def deploy (env : DeployEnv) (confirmDeployment : Bool) :
    List DeployEvent × DeployOutcome :=
  match env.containingWorkspace with
  | none => (preResolutionEvents env, DeployOutcome.thrown noWorkspaceMessage)
  | some workspaceRoot =>
      match resolveNodeStep env with
      | (evR, Except.error _) =>
          (preResolutionEvents env ++ evR, DeployOutcome.userCancelled)
      | (evR, Except.ok (node, newNodes)) =>
          let a := afterResolution env confirmDeployment workspaceRoot
            (initialSiteConfig env) node newNodes
          (preResolutionEvents env ++ evR ++ a.1, a.2)

/-! ## Claims about the .NET pre-deploy policy -/

/-- Whether an effect list writes the workspace setting named `key`. -/
def writesSetting (effects : List DotnetEffect) (key : String) : Bool :=
  effects.any (fun e => match e with
    | DotnetEffect.wroteSetting k _ _ => k == key
    | _ => false)

/-- C3: on every execution path of `setPreDeployTaskForDotnet`, the
`preDeployTask` and `deploySubpath` workspace settings are written in the
same invocation or neither is written. -/
theorem setPreDeployTaskForDotnet_atomic_settings (env : DotnetEnv) :
    writesSetting (setPreDeployTaskForDotnet env).effects "preDeployTask"
      = writesSetting (setPreDeployTaskForDotnet env).effects "deploySubpath" := by
  simp only [setPreDeployTaskForDotnet]
  by_cases h1 : (!optBoolTruthy env.showPreDeployWarning
      || optStrTruthy env.preDeployTask || optStrTruthy env.deploySubpath) = true
  · rw [if_pos h1]
    rfl
  · rw [if_neg h1]
    by_cases h2 : ((!isPathEqual env.deployFsPath env.workspaceFsPath) = true)
    · rw [if_pos h2]
      rfl
    · rw [if_neg h2]
      cases hcs : tryGetCsprojFile env with
      | none => rfl
      | some f =>
          dsimp only
          cases htf : tryGetTargetFramework (env.fileContents f) with
          | none => rfl
          | some tf =>
              dsimp only
              cases hpc : env.promptChoice <;> rfl

/-- C5: when a non-empty `preDeployTask` or `deploySubpath` is already
persisted, or the warning was opted out, `setPreDeployTaskForDotnet`
returns without scanning, prompting, or writing anything. -/
theorem setPreDeployTaskForDotnet_respects_existing_config (env : DotnetEnv)
    (h : optStrTruthy env.preDeployTask = true
      ∨ optStrTruthy env.deploySubpath = true
      ∨ env.showPreDeployWarning = some false) :
    setPreDeployTaskForDotnet env =
      { effects := [], deployFsPath := env.deployFsPath,
        cancelled := false } := by
  have hc : (!optBoolTruthy env.showPreDeployWarning
      || optStrTruthy env.preDeployTask
      || optStrTruthy env.deploySubpath) = true := by
    rcases h with h | h | h
    · simp [h]
    · simp [h]
    · simp [h, optBoolTruthy]
  simp only [setPreDeployTaskForDotnet]
  rw [if_pos hc]

/-- Environment with an already persisted pre-deploy task. -/
def dotnetSkipEnv : DotnetEnv :=
  { workspaceFsPath := "/ws", workspaceName := "ws", deployFsPath := "/ws",
    showPreDeployWarning := some true, preDeployTask := some "npm run build",
    deploySubpath := none,
    rootEntries := [{ name := "App.csproj", isDirectory := false,
                      children := [] }],
    fileContents := fun _ => "<TargetFramework>net6.0</TargetFramework>",
    promptChoice := DotnetPromptChoice.yes, existingTasks := [] }

theorem setPreDeployTaskForDotnet_respects_existing_config_witness :
    optStrTruthy dotnetSkipEnv.preDeployTask = true ∧
    setPreDeployTaskForDotnet dotnetSkipEnv =
      { effects := [], deployFsPath := dotnetSkipEnv.deployFsPath,
        cancelled := false } :=
  ⟨by rfl,
   setPreDeployTaskForDotnet_respects_existing_config dotnetSkipEnv
     (Or.inl (by rfl))⟩

/-- C6: when the scan finds two or more `.csproj` files, detection is
abandoned — no prompt is shown and no setting and no task definition is
persisted, on every path of the function. -/
theorem setPreDeployTaskForDotnet_multiple_csproj_aborts (env : DotnetEnv)
    (h : 2 ≤ (scannedProjectFiles env).length) :
    (setPreDeployTaskForDotnet env).effects.all
      (fun e => e == DotnetEffect.scannedFilesystem) = true := by
  have hnone : tryGetCsprojFile env = none := by
    simp only [tryGetCsprojFile]
    rw [if_neg (by omega)]
  simp only [setPreDeployTaskForDotnet]
  by_cases h1 : (!optBoolTruthy env.showPreDeployWarning
      || optStrTruthy env.preDeployTask || optStrTruthy env.deploySubpath) = true
  · rw [if_pos h1]
    rfl
  · rw [if_neg h1]
    by_cases h2 : ((!isPathEqual env.deployFsPath env.workspaceFsPath) = true)
    · rw [if_pos h2]
      rfl
    · rw [if_neg h2]
      rw [hnone]
      rfl

/-- Environment whose root holds two project files. -/
def dotnetTwoCsprojEnv : DotnetEnv :=
  { workspaceFsPath := "/ws", workspaceName := "ws", deployFsPath := "/ws",
    showPreDeployWarning := some true, preDeployTask := none,
    deploySubpath := none,
    rootEntries := [{ name := "A.csproj", isDirectory := false,
                      children := [] },
                    { name := "B.csproj", isDirectory := false,
                      children := [] }],
    fileContents := fun _ => "<TargetFramework>net6.0</TargetFramework>",
    promptChoice := DotnetPromptChoice.yes, existingTasks := [] }

theorem setPreDeployTaskForDotnet_multiple_csproj_aborts_witness :
    2 ≤ (scannedProjectFiles dotnetTwoCsprojEnv).length ∧
    (setPreDeployTaskForDotnet dotnetTwoCsprojEnv).effects.all
      (fun e => e == DotnetEffect.scannedFilesystem) = true :=
  ⟨by decide,
   setPreDeployTaskForDotnet_multiple_csproj_aborts dotnetTwoCsprojEnv
     (by decide)⟩

/-- C7: with exactly one `.csproj` found, an extractable target framework,
and a `Yes` answer, the persisted `deploySubpath` is the posix join of the
project folder (relative to the workspace root, `"."` for the root itself)
with `bin/Release/<targetFramework>/publish`, `preDeployTask` is set to
`publish`, and the in-flight `deployFsPath` becomes the workspace root
joined with that subpath. -/
theorem setPreDeployTaskForDotnet_yes_sets_subpath (env : DotnetEnv)
    (f tf : String)
    (h1 : (!optBoolTruthy env.showPreDeployWarning
      || optStrTruthy env.preDeployTask
      || optStrTruthy env.deploySubpath) = false)
    (h2 : isPathEqual env.deployFsPath env.workspaceFsPath = true)
    (h3 : scannedProjectFiles env = [f])
    (h4 : tryGetTargetFramework (env.fileContents f) = some tf)
    (h5 : env.promptChoice = DotnetPromptChoice.yes) :
    (DotnetEffect.wroteSetting "preDeployTask" (SettingValue.s "publish")
        env.workspaceFsPath ∈ (setPreDeployTaskForDotnet env).effects)
    ∧ (DotnetEffect.wroteSetting "deploySubpath"
        (SettingValue.s (posixJoin
          [pathDirname (pathRelative env.workspaceFsPath f),
           "bin", "Release", tf, "publish"])) env.workspaceFsPath
        ∈ (setPreDeployTaskForDotnet env).effects)
    ∧ (setPreDeployTaskForDotnet env).deployFsPath
        = pathJoin env.workspaceFsPath
            (posixJoin [pathDirname (pathRelative env.workspaceFsPath f),
              "bin", "Release", tf, "publish"]) := by
  have hcs : tryGetCsprojFile env = some f := by
    simp only [tryGetCsprojFile, h3]
    rfl
  simp only [setPreDeployTaskForDotnet]
  rw [if_neg (by simp [h1]), if_neg (by simp [h2]), hcs]
  dsimp only
  rw [h4]
  dsimp only
  rw [h5]
  refine ⟨?_, ?_, rfl⟩
  · simp
  · simp

/-- Environment with a single root project file and a `Yes` answer. -/
def dotnetYesEnv : DotnetEnv :=
  { workspaceFsPath := "/ws", workspaceName := "ws", deployFsPath := "/ws",
    showPreDeployWarning := some true, preDeployTask := none,
    deploySubpath := none,
    rootEntries := [{ name := "App.csproj", isDirectory := false,
                      children := [] }],
    fileContents := fun _ => "<TargetFramework>net6.0</TargetFramework>",
    promptChoice := DotnetPromptChoice.yes,
    existingTasks := [{ label := "build", command := "npm", type := "shell",
                        args := [], problemMatcher := "" }] }

theorem setPreDeployTaskForDotnet_yes_sets_subpath_witness :
    scannedProjectFiles dotnetYesEnv = ["/ws/App.csproj"] ∧
    tryGetTargetFramework (dotnetYesEnv.fileContents "/ws/App.csproj")
      = some "net6.0" ∧
    (setPreDeployTaskForDotnet dotnetYesEnv).deployFsPath
      = pathJoin "/ws" (posixJoin [pathDirname (pathRelative "/ws" "/ws/App.csproj"),
          "bin", "Release", "net6.0", "publish"]) :=
  ⟨by rfl, by rfl,
   (setPreDeployTaskForDotnet_yes_sets_subpath dotnetYesEnv "/ws/App.csproj"
     "net6.0" (by rfl) (by rfl) (by rfl) (by rfl) (by rfl)).2.2⟩

/-- C8: on an accepted prompt, the written task list is the pre-existing
tasks followed by exactly those generated tasks (labels `build`, `publish`,
`watch`) whose label does not already occur, so every pre-existing task
definition survives unchanged. -/
theorem setPreDeployTaskForDotnet_merges_tasks (env : DotnetEnv)
    (f tf : String)
    (h1 : (!optBoolTruthy env.showPreDeployWarning
      || optStrTruthy env.preDeployTask
      || optStrTruthy env.deploySubpath) = false)
    (h2 : isPathEqual env.deployFsPath env.workspaceFsPath = true)
    (h3 : scannedProjectFiles env = [f])
    (h4 : tryGetTargetFramework (env.fileContents f) = some tf)
    (h5 : env.promptChoice = DotnetPromptChoice.yes) :
    ((generateDotnetTasks (pathDirname (pathRelative env.workspaceFsPath f))).map
        ITask.label = ["build", "publish", "watch"])
    ∧ (DotnetEffect.wroteTasks
        (env.existingTasks ++
          (generateDotnetTasks
            (pathDirname (pathRelative env.workspaceFsPath f))).filter
              (fun t1 => !(env.existingTasks.any
                (fun t2 => t1.label == t2.label))))
        ∈ (setPreDeployTaskForDotnet env).effects)
    ∧ (∀ t ∈ env.existingTasks,
        t ∈ env.existingTasks ++
          (generateDotnetTasks
            (pathDirname (pathRelative env.workspaceFsPath f))).filter
              (fun t1 => !(env.existingTasks.any
                (fun t2 => t1.label == t2.label)))) := by
  have hcs : tryGetCsprojFile env = some f := by
    simp only [tryGetCsprojFile, h3]
    rfl
  refine ⟨rfl, ?_, ?_⟩
  · simp only [setPreDeployTaskForDotnet]
    rw [if_neg (by simp [h1]), if_neg (by simp [h2]), hcs]
    dsimp only
    rw [h4]
    dsimp only
    rw [h5]
    simp
  · intro t ht
    exact List.mem_append_left _ ht

theorem setPreDeployTaskForDotnet_merges_tasks_witness :
    scannedProjectFiles dotnetYesEnv = ["/ws/App.csproj"] ∧
    (DotnetEffect.wroteTasks
        (dotnetYesEnv.existingTasks ++
          (generateDotnetTasks
            (pathDirname (pathRelative "/ws" "/ws/App.csproj"))).filter
              (fun t1 => !(dotnetYesEnv.existingTasks.any
                (fun t2 => t1.label == t2.label))))
        ∈ (setPreDeployTaskForDotnet dotnetYesEnv).effects) :=
  ⟨by rfl,
   (setPreDeployTaskForDotnet_merges_tasks dotnetYesEnv "/ws/App.csproj"
     "net6.0" (by rfl) (by rfl) (by rfl) (by rfl) (by rfl)).2.1⟩

/-! ## Claims about the deploy entry point -/

/-- Whether an event shows the destructive-deploy warning. -/
def isWarningEvent : DeployEvent → Bool
  | DeployEvent.showConfirmationWarning _ => true
  | _ => false

/-- Whether an event runs the pre-deploy task or transfers the artifact. -/
def isArtifactActionEvent : DeployEvent → Bool
  | DeployEvent.runPreDeployTask => true
  | DeployEvent.transferArtifact _ _ => true
  | _ => false

/-- Whether an event is a remote call. -/
def isRemoteCallEvent : DeployEvent → Bool
  | DeployEvent.remoteGetSiteConfig _ => true
  | _ => false

theorem any_map_false {α β : Type} (l : List α) (f : α → β) (p : β → Bool)
    (h : ∀ a, p (f a) = false) : (l.map f).any p = false := by
  induction l with
  | nil => rfl
  | cons a tl ih => simp [h, ih]

theorem scmBuildPromptEvents_any (env : DeployEnv) (sc : SiteConfigResource)
    (p : DeployEvent → Bool)
    (h : ∀ r, p (DeployEvent.promptScmDoBuildDeploy r) = false) :
    (scmBuildPromptEvents env sc).any p = false := by
  unfold scmBuildPromptEvents
  repeat' split
  all_goals simp [h]

theorem finishEvents_any (env : DeployEnv) (node : SiteTreeItem)
    (fsPath : String) (p : DeployEvent → Bool)
    (h1 : p DeployEvent.promptToSaveDeployDefaults = false)
    (h2 : p DeployEvent.runPreDeployTask = false)
    (h3 : ∀ id fp, p (DeployEvent.transferArtifact id fp) = false)
    (h4 : p DeployEvent.showDeployCompleteMessage = false)
    (h5 : p DeployEvent.validateWebSite = false) :
    (finishEvents env node fsPath).any p = false := by
  unfold finishEvents
  split <;> simp [h1, h2, h3, h4, h5]

theorem preResolutionEvents_any (env : DeployEnv) (p : DeployEvent → Bool)
    (h1 : ∀ id, p (DeployEvent.remoteGetSiteConfig id) = false)
    (h2 : p DeployEvent.resolveDeployFsPath = false) :
    (preResolutionEvents env).any p = false := by
  unfold preResolutionEvents
  repeat' split
  all_goals simp [h1, h2]

theorem resolveNodeStep_events_any (env : DeployEnv) (p : DeployEvent → Bool)
    (h1 : p DeployEvent.registerCreateListener = false)
    (h2 : p DeployEvent.getDefaultWebApp = false)
    (h3 : p DeployEvent.showTreeItemPicker = false)
    (h4 : p DeployEvent.disposeCreateListener = false) :
    (resolveNodeStep env).1.any p = false := by
  unfold resolveNodeStep
  repeat' split
  all_goals simp [h1, h2, h3, h4]

theorem map_remote_no_warning (l : List SiteTreeItem) :
    (l.map (fun a => DeployEvent.remoteGetSiteConfig a.fullId)).any
      isWarningEvent = false :=
  any_map_false l _ _ (fun _ => rfl)

theorem scm_no_warning (env : DeployEnv) (sc : SiteConfigResource) :
    (scmBuildPromptEvents env sc).any isWarningEvent = false :=
  scmBuildPromptEvents_any env sc _ (fun _ => rfl)

theorem finish_no_warning (env : DeployEnv) (node : SiteTreeItem)
    (fsPath : String) :
    (finishEvents env node fsPath).any isWarningEvent = false :=
  finishEvents_any env node fsPath _ rfl rfl (fun _ _ => rfl) rfl rfl

theorem preResolution_no_warning (env : DeployEnv) :
    (preResolutionEvents env).any isWarningEvent = false :=
  preResolutionEvents_any env _ (fun _ => rfl) rfl

theorem resolveStep_no_warning (env : DeployEnv) :
    (resolveNodeStep env).1.any isWarningEvent = false :=
  resolveNodeStep_events_any env _ rfl rfl rfl rfl

theorem map_remote_no_artifact (l : List SiteTreeItem) :
    (l.map (fun a => DeployEvent.remoteGetSiteConfig a.fullId)).any
      isArtifactActionEvent = false :=
  any_map_false l _ _ (fun _ => rfl)

theorem scm_no_artifact (env : DeployEnv) (sc : SiteConfigResource) :
    (scmBuildPromptEvents env sc).any isArtifactActionEvent = false :=
  scmBuildPromptEvents_any env sc _ (fun _ => rfl)

theorem preResolution_no_artifact (env : DeployEnv) :
    (preResolutionEvents env).any isArtifactActionEvent = false :=
  preResolutionEvents_any env _ (fun _ => rfl) rfl

theorem resolveStep_no_artifact (env : DeployEnv) :
    (resolveNodeStep env).1.any isArtifactActionEvent = false :=
  resolveNodeStep_events_any env _ rfl rfl rfl rfl

theorem confirmationGate_false (sc : SiteConfigResource) :
    confirmationGate false sc = false := rfl

theorem gate_false_branch {α : Type} (sc : SiteConfigResource) (a b : α) :
    (if confirmationGate false sc then a else b) = b := rfl

theorem afterResolution_no_warning (env : DeployEnv) (c : Bool) (w : String)
    (sc0 : Option SiteConfigResource) (node : SiteTreeItem)
    (newNodes : List SiteTreeItem)
    (h : newNodes.any (fun a => a.fullId == node.fullId) = true) :
    (afterResolution env c w sc0 node newNodes).1.any isWarningEvent
      = false := by
  have hc : tieBreakConfirm newNodes node c = false := by
    simp [tieBreakConfirm, h]
  simp only [afterResolution]
  rw [hc, gate_false_branch]
  cases sc0 with
  | none =>
      dsimp only
      split
      · split <;>
          simp [List.any_append, map_remote_no_warning, scm_no_warning,
            finish_no_warning, isWarningEvent]
      · simp [List.any_append, map_remote_no_warning, scm_no_warning,
          finish_no_warning, isWarningEvent]
  | some sc =>
      dsimp only
      split
      · split <;>
          simp [List.any_append, map_remote_no_warning, scm_no_warning,
            finish_no_warning, isWarningEvent]
      · simp [List.any_append, map_remote_no_warning, scm_no_warning,
          finish_no_warning, isWarningEvent]

/-- C4: when the resolved node has the same `fullId` as a node created
during the same resolution pass, the destructive-deploy confirmation modal
is never shown, whatever `confirmDeployment` was passed. -/
theorem deploy_created_node_suppresses_confirmation (env : DeployEnv)
    (c : Bool) (n : SiteTreeItem)
    (h1 : (resolveNodeStep env).2 = Except.ok (n, env.createdNodes))
    (h2 : env.createdNodes.any (fun a => a.fullId == n.fullId) = true) :
    (deploy env c).1.any isWarningEvent = false := by
  unfold deploy
  cases hw : env.containingWorkspace with
  | none =>
      simp [List.any_append, preResolution_no_warning]
  | some w =>
      rcases hr : resolveNodeStep env with ⟨evR, res⟩
      rw [hr] at h1
      dsimp only at h1
      subst h1
      dsimp only
      have hevR : evR.any isWarningEvent = false := by
        have := resolveStep_no_warning env
        rw [hr] at this
        exact this
      have hafter := afterResolution_no_warning env c w (initialSiteConfig env)
        n env.createdNodes h2
      simp [List.any_append, preResolution_no_warning, hevR, hafter]

/-- A site node whose remote configuration reports the given scm type. -/
def sampleSite (scm : String) : SiteTreeItem :=
  { fullId := "/subscriptions/s/resourceGroups/rg/sites/site1",
    fullName := "site1",
    siteConfig := { scmType := some scm, linuxFxVersion := none } }

/-- A deploy environment whose entry point is a tree item with the given
scm type, inside an open workspace. -/
def sampleTreeItemEnv (scm : String) : DeployEnv :=
  { target := some (DeployTarget.treeItem (sampleSite scm)),
    deployFsPath := "/ws", containingWorkspace := some "/ws",
    defaultWebApp := none, deployedWithConfigs := false,
    pickerResult := Except.error (), createdNodes := [],
    isJavaRuntime := fun _ => false, javaArtifactPick := none,
    showBuildDuringDeployPrompt := false, deploymentFileExists := false,
    warningChoice := WarningChoice.deploy }

/-- Environment where interactive selection resolves to a node that was
created during the same resolution pass. -/
def createdNodePickEnv : DeployEnv :=
  { sampleTreeItemEnv scmTypeNone with
      target := none,
      pickerResult := Except.ok (sampleSite scmTypeNone),
      createdNodes := [sampleSite scmTypeNone] }

theorem deploy_created_node_suppresses_confirmation_witness :
    (resolveNodeStep createdNodePickEnv).2
        = Except.ok (sampleSite scmTypeNone, createdNodePickEnv.createdNodes)
    ∧ (createdNodePickEnv.createdNodes.any
        (fun a => a.fullId == (sampleSite scmTypeNone).fullId)) = true
    ∧ (deploy createdNodePickEnv true).1.any isWarningEvent = false :=
  ⟨rfl, by decide,
   deploy_created_node_suppresses_confirmation createdNodePickEnv true
     (sampleSite scmTypeNone) rfl (by decide)⟩

/-- C1 (code bug): with `confirmDeployment = true` and a target that was not
freshly created, a fetched `scmType` of `GitHub` does NOT suppress the
confirmation warning, while `LocalGit` does — line 125 compares the
`siteConfig` object itself, not its `scmType`, with `ScmType.GitHub`, so
the GitHub conjunct never suppresses anything. -/
theorem deploy_confirmation_shown_for_github :
    (deploy (sampleTreeItemEnv scmTypeGitHub) true).1.any isWarningEvent = true
    ∧ (deploy (sampleTreeItemEnv scmTypeLocalGit) true).1.any isWarningEvent
        = false :=
  ⟨rfl, rfl⟩

/-- Environment whose entry point is a tree item and whose resolved local
path lies outside every open workspace. -/
def outsideWorkspaceTreeItemEnv : DeployEnv :=
  { sampleTreeItemEnv scmTypeNone with containingWorkspace := none }

/-- C2 (counterexample): with a pre-selected tree-item target and a path in
no open workspace, `deploy` fails with the no-workspace error, yet a remote
site-configuration fetch has already happened — against the claim that no
remote call is performed, for every kind of target argument. -/
theorem deploy_remote_call_precedes_noworkspace_failure :
    (deploy outsideWorkspaceTreeItemEnv true).2
        = DeployOutcome.thrown noWorkspaceMessage
    ∧ DeployEvent.remoteGetSiteConfig
        "/subscriptions/s/resourceGroups/rg/sites/site1"
        ∈ (deploy outsideWorkspaceTreeItemEnv true).1 :=
  ⟨rfl, by decide⟩

/-- C2 (amended): when the resolved path is in no open workspace, `deploy`
always fails with the no-workspace error, having performed nothing but the
initial tree-item configuration fetch and the local path resolution; in
particular no remote call at all precedes the failure unless the target was
a pre-selected tree item. -/
theorem deploy_outside_workspace_fails (env : DeployEnv) (c : Bool)
    (h : env.containingWorkspace = none) :
    (deploy env c).2 = DeployOutcome.thrown noWorkspaceMessage
    ∧ (deploy env c).1 = preResolutionEvents env
    ∧ ((∀ n, env.target ≠ some (DeployTarget.treeItem n)) →
        (deploy env c).1.any isRemoteCallEvent = false) := by
  unfold deploy
  rw [h]
  refine ⟨rfl, rfl, ?_⟩
  intro hn
  unfold preResolutionEvents
  cases ht : env.target with
  | none => rfl
  | some t =>
      cases t with
      | uri p => rfl
      | treeItem m => exact absurd ht (hn m)

/-- Environment with a plain `Uri` target and a path outside every open
workspace. -/
def outsideWorkspaceUriEnv : DeployEnv :=
  { sampleTreeItemEnv scmTypeNone with
      target := some (DeployTarget.uri "/elsewhere/app"),
      containingWorkspace := none }

theorem deploy_outside_workspace_fails_witness :
    outsideWorkspaceUriEnv.containingWorkspace = none
    ∧ (deploy outsideWorkspaceUriEnv true).2
        = DeployOutcome.thrown noWorkspaceMessage
    ∧ (deploy outsideWorkspaceUriEnv true).1.any isRemoteCallEvent = false :=
  ⟨rfl,
   (deploy_outside_workspace_fails outsideWorkspaceUriEnv true rfl).1,
   (deploy_outside_workspace_fails outsideWorkspaceUriEnv true rfl).2.2
     (by intro n h; cases h)⟩

theorem afterResolution_reset (env : DeployEnv) (c : Bool) (w : String)
    (sc0 : Option SiteConfigResource) (node : SiteTreeItem)
    (newNodes : List SiteTreeItem)
    (hc : tieBreakConfirm newNodes node c = true)
    (hscm : (node.siteConfig.scmType == some scmTypeLocalGit) = false)
    (hsc0 : sc0 = none ∨ sc0 = some node.siteConfig)
    (hwc : env.warningChoice = WarningChoice.resetDefault) :
    (afterResolution env c w sc0 node newNodes).2
        = DeployOutcome.returnedAfterReset
    ∧ DeployEvent.updateWorkspaceSetting defaultWebAppToDeploySetting "" w
        ∈ (afterResolution env c w sc0 node newNodes).1
    ∧ DeployEvent.executeCommand "appService.Deploy"
        ∈ (afterResolution env c w sc0 node newNodes).1
    ∧ (afterResolution env c w sc0 node newNodes).1.any isArtifactActionEvent
        = false := by
  have hg : confirmationGate (tieBreakConfirm newNodes node c)
      node.siteConfig = true := by
    simp [confirmationGate, hc, hscm, siteConfigStrictNeGitHub]
  simp only [afterResolution]
  rcases hsc0 with h | h <;> subst h
  · dsimp only
    rw [if_pos hg, hwc]
    dsimp only
    refine ⟨rfl, by simp, by simp, ?_⟩
    split
    · split <;>
        simp [List.any_append, map_remote_no_artifact, scm_no_artifact,
          isArtifactActionEvent]
    · simp [List.any_append, map_remote_no_artifact, scm_no_artifact,
        isArtifactActionEvent]
  · dsimp only
    rw [if_pos hg, hwc]
    dsimp only
    refine ⟨rfl, by simp, by simp, ?_⟩
    split
    · split <;>
        simp [List.any_append, map_remote_no_artifact, scm_no_artifact,
          isArtifactActionEvent]
    · simp [List.any_append, map_remote_no_artifact, scm_no_artifact,
        isArtifactActionEvent]

/-- C9: when the confirmation warning answers `Reset default`, the persisted
default-target preference is cleared (written to the empty string), the
deploy entry point is re-invoked through the command surface, and the
invocation returns with outcome `returnedAfterReset` without running the
pre-deploy task and without transferring any artifact. -/
theorem deploy_reset_default_restarts (env : DeployEnv) (n : SiteTreeItem)
    (nn : List SiteTreeItem) (w : String)
    (h0 : env.containingWorkspace = some w)
    (h1 : (resolveNodeStep env).2 = Except.ok (n, nn))
    (h2 : nn.any (fun a => a.fullId == n.fullId) = false)
    (h3 : (n.siteConfig.scmType == some scmTypeLocalGit) = false)
    (h4 : env.warningChoice = WarningChoice.resetDefault)
    (_h5 : env.deployedWithConfigs = true) :
    (deploy env true).2 = DeployOutcome.returnedAfterReset
    ∧ DeployEvent.updateWorkspaceSetting defaultWebAppToDeploySetting "" w
        ∈ (deploy env true).1
    ∧ DeployEvent.executeCommand "appService.Deploy" ∈ (deploy env true).1
    ∧ (deploy env true).1.any isArtifactActionEvent = false := by
  have hsc0 : initialSiteConfig env = none
      ∨ initialSiteConfig env = some n.siteConfig := by
    cases ht : env.target with
    | none => exact Or.inl (by simp [initialSiteConfig, ht])
    | some t =>
        cases t with
        | uri p => exact Or.inl (by simp [initialSiteConfig, ht])
        | treeItem m =>
            refine Or.inr ?_
            have hm : m = n := by
              unfold resolveNodeStep at h1
              rw [ht] at h1
              dsimp only at h1
              simp at h1
              exact h1.1
            simp [initialSiteConfig, ht, hm]
  have hc : tieBreakConfirm nn n true = true := by
    simp [tieBreakConfirm, h2]
  have hres := afterResolution_reset env true w (initialSiteConfig env) n nn
    hc h3 hsc0 h4
  unfold deploy
  rw [h0]
  rcases hr : resolveNodeStep env with ⟨evR, res⟩
  rw [hr] at h1
  dsimp only at h1
  subst h1
  dsimp only
  have hevR : evR.any isArtifactActionEvent = false := by
    have := resolveStep_no_artifact env
    rw [hr] at this
    exact this
  refine ⟨hres.1, ?_, ?_, ?_⟩
  · exact List.mem_append_right _ hres.2.1
  · exact List.mem_append_right _ hres.2.2.1
  · simp [List.any_append, preResolution_no_artifact, hevR, hres.2.2.2]

/-- Environment in which a configured default target was used and the user
answers the warning with the reset button. -/
def resetDefaultEnv : DeployEnv :=
  { sampleTreeItemEnv scmTypeNone with
      deployedWithConfigs := true,
      warningChoice := WarningChoice.resetDefault }

theorem deploy_reset_default_restarts_witness :
    resetDefaultEnv.containingWorkspace = some "/ws"
    ∧ (resolveNodeStep resetDefaultEnv).2
        = Except.ok (sampleSite scmTypeNone, [])
    ∧ resetDefaultEnv.warningChoice = WarningChoice.resetDefault
    ∧ (deploy resetDefaultEnv true).2 = DeployOutcome.returnedAfterReset
    ∧ DeployEvent.updateWorkspaceSetting defaultWebAppToDeploySetting ""
        "/ws" ∈ (deploy resetDefaultEnv true).1 :=
  ⟨rfl, rfl, rfl,
   (deploy_reset_default_restarts resetDefaultEnv (sampleSite scmTypeNone)
     [] "/ws" rfl rfl rfl rfl rfl rfl).1,
   (deploy_reset_default_restarts resetDefaultEnv (sampleSite scmTypeNone)
     [] "/ws" rfl rfl rfl rfl rfl rfl).2.1⟩
